import Mathlib

/-
Verification development for the Skylark RTSP-viewer frontend.

The definitions below are a shallow embedding of the connection-lifecycle
and stream-session logic of the repository:
  - src/services/socketService.ts   (class WebSocketService)
  - src/hooks/useStreamWebSocket.ts (hook useStreamWebSocket)
  - the useSocket hook              (src/unnamed/part_001)
  - src/hooks/useRtspStream.ts      (hook useRtspStream)
  - src/store/streamStore.ts        (zustand stream store)
Stateful code is modelled as explicit state passing; side effects that
matter to the properties (messages sent, listener dispatches, console
logging of frame-validation failures, timer scheduling) are returned as
explicit data.
-/

namespace Skylark

/-- StreamStatus from src/types/stream.ts:
    type StreamStatus = idle | loading | playing | error | stopped. -/
inductive StreamStatus
  | idle
  | loading
  | playing
  | error
  | stopped
deriving DecidableEq

/-- The readyState of a browser WebSocket object (the numeric constants
    WebSocket.CONNECTING, WebSocket.OPEN, WebSocket.CLOSING, WebSocket.CLOSED). -/
inductive WSReadyState
  | CONNECTING
  | OPEN
  | CLOSING
  | CLOSED
deriving DecidableEq

/-- SocketConnectionState from socketService.ts.  The source value "open"
    is rendered `opened` because `open` is a Lean keyword. -/
inductive SocketConnectionState
  | connecting
  | opened
  | closing
  | closed
  | uninstantiated
deriving DecidableEq

/-- Truthiness of an optional JS string: `!x` holds when the value is
    undefined/null or the empty string. -/
def falsyStr : Option String → Bool
  | none => true
  | some s => s = ""

/-- JS `a || b` on optional strings (an empty string is falsy and falls
    through to `b`). -/
def jsOrString (a b : Option String) : Option String :=
  if falsyStr a then b else a

/-- Network-facing actions performed by the hooks through the socket layer. -/
inductive NetAction
  | connectCall
  | sendStartStream (url : String)
  | sendStopStream
  | forceClose
deriving DecidableEq

/-! ## WebSocketService (src/services/socketService.ts) -/

/-- Mutable state of the WebSocketService singleton.  `socket` is the
    readyState of the current WebSocket object (`none` when the field is
    null); `socketGen` counts how many WebSocket objects have been
    constructed so far, so that creation of a new transport object is
    observable; `reconnectTimeout` records whether a reconnect timer is
    pending; `onLine` is navigator.onLine. -/
structure WebSocketService where
  socket : Option WSReadyState
  state : SocketConnectionState
  reconnectAttempts : Nat
  reconnectTimeout : Bool
  isManualClose : Bool
  pingActive : Bool
  onLine : Bool
  socketGen : Nat
deriving DecidableEq

/-- maxReconnects from socketService.ts (line 31). -/
def maxReconnects : Nat := 10

namespace WebSocketService

/-- scheduleReconnect (socketService.ts lines 208-222).  Increments the
    attempt counter; if the new count is within the budget a reconnect
    timer is set, otherwise a terminal error event is dispatched.
    Returns (new state, whether a reconnect was scheduled, whether the
    terminal "Failed to reconnect after multiple attempts" error was
    dispatched). -/
def scheduleReconnect (s : WebSocketService) : WebSocketService × Bool × Bool :=
  let a := s.reconnectAttempts + 1
  if a ≤ maxReconnects then
    ({ s with reconnectAttempts := a, reconnectTimeout := true }, true, false)
  else
    ({ s with reconnectAttempts := a }, false, true)

/-- The socket.onclose handler (socketService.ts lines 114-124): sets the
    state to closed, stops the ping timer, and, unless the closure was
    marked manual, calls scheduleReconnect.  The close code of the event is
    dispatched to close listeners but takes no part in the control flow.
    Returns (new state, reconnect scheduled, terminal error dispatched). -/
def onclose (s : WebSocketService) (_code : Nat) : WebSocketService × Bool × Bool :=
  let s1 := { s with state := SocketConnectionState.closed,
                     socket := some WSReadyState.CLOSED, pingActive := false }
  if s1.isManualClose then (s1, false, false)
  else scheduleReconnect s1

/-- connect() (socketService.ts lines 83-154), non-throwing constructor
    path: skip when the current socket is OPEN; dispatch an error and stop
    when offline; otherwise clear any pending reconnect timer and build a
    fresh WebSocket (readyState CONNECTING), setting the state to
    connecting.  Returns the new state together with the error messages
    dispatched. -/
def connect (s : WebSocketService) : WebSocketService × List String :=
  if s.socket = some WSReadyState.OPEN then (s, [])
  else if s.onLine = false then (s, ["Offline, cannot connect"])
  else
    ({ s with reconnectTimeout := false,
              state := SocketConnectionState.connecting,
              socket := some WSReadyState.CONNECTING,
              socketGen := s.socketGen + 1 }, [])

/-- disconnect() (socketService.ts lines 156-165): stops the ping timer
    and, when a socket exists, marks the closure manual, moves the state to
    closing, calls socket.close() and clears any pending reconnect timer. -/
def disconnect (s : WebSocketService) : WebSocketService :=
  let s1 := { s with pingActive := false }
  match s1.socket with
  | none => s1
  | some _ =>
      { s1 with isManualClose := true,
                state := SocketConnectionState.closing,
                socket := some WSReadyState.CLOSING,
                reconnectTimeout := false }

/-- The listener dispatches performed by socket.onmessage (socketService.ts
    lines 131-147) for a successfully parsed message whose `type` field is
    `t` (`none` when the field is absent).  A pong is swallowed; otherwise
    the generic "message" listeners fire and, when the type is truthy, the
    per-type listeners fire as well. -/
def onmessageDispatches (t : Option String) : List String :=
  match t with
  | some ty =>
      if ty = "pong" then []
      else if ty = "" then ["message"]
      else ["message", ty]
  | none => ["message"]

end WebSocketService

/-! ## Consecutive-abnormal-closure runs of WebSocketService (claim C2) -/

/-- A freshly opened connection: attempts reset to 0 (the onopen handler),
    no manual close, browser online. -/
def freshOpen : WebSocketService :=
  { socket := some WSReadyState.OPEN
    state := SocketConnectionState.opened
    reconnectAttempts := 0
    reconnectTimeout := false
    isManualClose := false
    pingActive := true
    onLine := true
    socketGen := 1 }

/-- One abnormal-closure step: if a reconnect timer is pending it fires
    (connect() runs, yielding a CONNECTING socket) and the new attempt then
    fails abnormally; the onclose handler runs with an abnormal close code
    (1006).  Returns (state, reconnect scheduled, terminal error dispatched). -/
def closureStep (s : WebSocketService) : WebSocketService × Bool × Bool :=
  let s1 := if s.reconnectTimeout then (WebSocketService.connect s).1 else s
  WebSocketService.onclose s1 1006

/-- State after k consecutive abnormal closures starting from a freshly
    opened connection, together with the number of terminal error events
    dispatched so far. -/
def runClosures : Nat → WebSocketService × Nat
  | 0 => (freshOpen, 0)
  | k + 1 =>
      let (s, e) := runClosures k
      let r := closureStep s
      (r.1, e + (if r.2.2 then 1 else 0))

/-- Whether the k-th consecutive abnormal closure (k ≥ 1) schedules a
    reconnect. -/
def scheduledAt (k : Nat) : Bool :=
  (closureStep (runClosures (k - 1)).1).2.1

/-- Terminal error events dispatched during the first k consecutive
    abnormal closures. -/
def errorsAfter (k : Nat) : Nat := (runClosures k).2

/-- A run of k consecutive abnormal closures is reachable when every
    closure before the k-th was followed by a scheduled reconnect (without
    a scheduled reconnect there is no connection left to close). -/
def reachableClosures (k : Nat) : Prop :=
  ∀ j, j < k → 1 ≤ j → scheduledAt j = true

instance (k : Nat) : Decidable (reachableClosures k) := by
  unfold reachableClosures; infer_instance

/-! ## useStreamWebSocket (src/hooks/useStreamWebSocket.ts) -/

/-- Local react state of the useStreamWebSocket hook.  `decodeFailures`
    counts the console.error / console.warn reports for frame payloads that
    fail validation (missing/empty frame, suspiciously small frame, legacy
    frame without data); the source records these failures by logging only. -/
structure HookState where
  streamStatus : StreamStatus
  frameData : Option String
  error : Option String
  decodeFailures : Nat
deriving DecidableEq

/-- Inbound socket messages as parsed by the hooks.  `streamFrame ""`
    covers both an empty and a missing `frame` field (both are falsy). -/
inductive WSMessage
  | streamFrame (frame : String)
  | streamError (message : String)
  | streamStopped
  | streamStarted
  | streamWarning (message : String)
  | legacyFrame (data : Option String)
  | otherType
deriving DecidableEq

namespace UseStreamWebSocket

/-- The lastMessage effect of useStreamWebSocket (lines 96-137): a frame
    message is validated (`!data.frame` rejected with a log, length < 100
    rejected with a warning) before frameData is stored and the status set
    to playing; stream.error sets error and status error; stream.stopped
    and stream.started set the status; warnings and unknown types are
    ignored; a legacy frame with string data is accepted. -/
def handleMessage (s : HookState) (m : WSMessage) : HookState :=
  match m with
  | WSMessage.streamFrame f =>
      if f = "" then { s with decodeFailures := s.decodeFailures + 1 }
      else if f.length < 100 then { s with decodeFailures := s.decodeFailures + 1 }
      else { s with frameData := some f, streamStatus := StreamStatus.playing }
  | WSMessage.streamError msg =>
      { s with error := some msg, streamStatus := StreamStatus.error }
  | WSMessage.streamStopped => { s with streamStatus := StreamStatus.stopped }
  | WSMessage.streamStarted => { s with streamStatus := StreamStatus.loading }
  | WSMessage.streamWarning _ => s
  | WSMessage.legacyFrame d =>
      match d with
      | some dat => { s with frameData := some dat, streamStatus := StreamStatus.playing }
      | none => { s with decodeFailures := s.decodeFailures + 1 }
  | WSMessage.otherType => s

/-- The error message produced by startStream when the transport is not
    open (lines 168-182). -/
def notOpenErrorMsg (ready : WSReadyState) : String :=
  match ready with
  | WSReadyState.CONNECTING => "WebSocket is still connecting. Please try again in a moment."
  | WSReadyState.CLOSING => "WebSocket connection is closing. Please refresh the page."
  | WSReadyState.CLOSED => "WebSocket connection is closed."
  | WSReadyState.OPEN => "WebSocket connection not ready."

/-- startStream from useStreamWebSocket (lines 139-196).  `isLocalDev`
    models rtspUrl.includes on the local-development hosts; that branch
    schedules a simulated frame asynchronously and synchronously only sets
    the status to loading.  When the transport is not open an error message
    is recorded and, when closed, the socket is force-closed to trigger a
    reconnect. -/
def startStream (s : HookState) (rtspUrl : Option String) (ready : WSReadyState)
    (isLocalDev : Bool) : HookState × List NetAction :=
  if ready = WSReadyState.OPEN then
    if falsyStr rtspUrl then
      ({ s with error := some "No RTSP URL provided" }, [])
    else
      let url := rtspUrl.getD ""
      let s1 := { s with streamStatus := StreamStatus.loading }
      if isLocalDev then (s1, [])
      else (s1, [NetAction.sendStartStream url])
  else
    let s1 := { s with error := some (notOpenErrorMsg ready) }
    if ready = WSReadyState.CLOSED then (s1, [NetAction.forceClose])
    else (s1, [])

/-- stopStream from useStreamWebSocket (lines 198-210): when open, send
    stop_stream and clear the frame buffer (the status is left untouched);
    otherwise just clear the frame buffer and set the status to stopped. -/
def stopStream (s : HookState) (ready : WSReadyState) : HookState × List NetAction :=
  if ready = WSReadyState.OPEN then
    ({ s with frameData := none }, [NetAction.sendStopStream])
  else
    ({ s with frameData := none, streamStatus := StreamStatus.stopped }, [])

end UseStreamWebSocket

/-- Initial react state of the hooks: status idle, no frame, no error. -/
def initialHookState : HookState :=
  { streamStatus := StreamStatus.idle, frameData := none, error := none,
    decodeFailures := 0 }

/-- A valid frame payload: 100 characters, passing both checks of the
    useStreamWebSocket validator. -/
def validFrame : String := String.mk (List.replicate 100 'a')

/-- Final hook state after the transport delivers, in order: started, a
    valid frame, stopped, and the same valid frame again (late). -/
def lateFrameFinal : HookState :=
  [WSMessage.streamStarted, WSMessage.streamFrame validFrame,
   WSMessage.streamStopped, WSMessage.streamFrame validFrame].foldl
    UseStreamWebSocket.handleMessage initialHookState

/-! ## useSocket hook (src/unnamed/part_001) -/

/-- Local react state of the useSocket hook. -/
structure UseSocketState where
  streamStatus : StreamStatus
  frameData : Option String
  error : Option String
deriving DecidableEq

namespace UseSocket

/-- handleFrame from the useSocket hook (part_001 lines 75-78): stores the
    frame field unconditionally and sets the status to playing — there is
    no validation and no check of the current status. -/
def handleFrame (s : UseSocketState) (frame : String) : UseSocketState :=
  { s with frameData := some frame, streamStatus := StreamStatus.playing }

/-- startStream from the useSocket hook (part_001 lines 149-191).  The
    effective URL is `url || currentRtspUrl`; when it is falsy an error
    message is recorded and the function returns — the status is not
    touched and nothing is sent.  When the socket is not open the
    synchronous effect is the connect() call (the deferred
    checkAndStartStream retries are asynchronous); when open, start_stream
    is sent, the status set to loading and the error cleared. -/
def startStream (s : UseSocketState) (currentRtspUrl urlArg : Option String)
    (ready : WSReadyState) : UseSocketState × List NetAction :=
  let streamUrl := jsOrString urlArg currentRtspUrl
  if falsyStr streamUrl then
    ({ s with error := some "No RTSP URL provided" }, [])
  else if ready = WSReadyState.OPEN then
    ({ s with streamStatus := StreamStatus.loading, error := none },
     [NetAction.sendStartStream (streamUrl.getD "")])
  else
    (s, [NetAction.connectCall])

/-- stopStream from the useSocket hook (part_001 lines 194-201): send
    stop_stream when open, then always clear the frame buffer and set the
    status to stopped. -/
def stopStream (s : UseSocketState) (ready : WSReadyState) : UseSocketState × List NetAction :=
  ({ s with frameData := none, streamStatus := StreamStatus.stopped },
   if ready = WSReadyState.OPEN then [NetAction.sendStopStream] else [])

end UseSocket

/-! ## useRtspStream (src/hooks/useRtspStream.ts) -/

/-- Local react state of the useRtspStream hook (the hook mirrors status
    and error into the global store via setStreamState; the mirror carries
    the same values). -/
structure RtspState where
  status : StreamStatus
  error : Option String
  wsUrl : Option String
deriving DecidableEq

namespace UseRtspStream

/-- The lastMessage effect of useRtspStream (lines 67-109): started and
    frame messages set the status to playing unconditionally, stopped sets
    stopped, error records the message and sets error, anything else is
    logged and ignored. -/
def handleMessage (s : RtspState) (m : WSMessage) : RtspState :=
  match m with
  | WSMessage.streamStarted => { s with status := StreamStatus.playing }
  | WSMessage.streamStopped => { s with status := StreamStatus.stopped }
  | WSMessage.streamError msg =>
      { s with error := some msg, status := StreamStatus.error }
  | WSMessage.streamFrame _ => { s with status := StreamStatus.playing }
  | _ => s

/-- stopStream from useRtspStream (lines 56-65): only when the socket is
    open and the status is playing does it send stop_stream and set the
    status to stopped; otherwise it does nothing at all. -/
def stopStream (s : RtspState) (ready : WSReadyState) : RtspState × List NetAction :=
  if ready = WSReadyState.OPEN ∧ s.status = StreamStatus.playing then
    ({ s with status := StreamStatus.stopped }, [NetAction.sendStopStream])
  else (s, [])

end UseRtspStream

/-! ## Stream store (src/store/streamStore.ts) -/

/-- A stream id: string | number in the source.  Strict equality between a
    string and a number is always false, matching the distinct constructors. -/
inductive StreamId
  | str (s : String)
  | num (n : Int)
deriving DecidableEq

/-- A stream configuration record (src/types/stream.ts, interface Stream);
    the optional timestamp fields are omitted as inert payload. -/
structure Stream where
  id : Option StreamId
  name : String
  url : String
  description : String
  active : Bool
deriving DecidableEq

/-- State of the zustand stream store. -/
structure StoreState where
  streams : List Stream
  isLoading : Bool
  error : Option String
  selectedStreamId : Option StreamId
deriving DecidableEq

/-- removeStream from streamStore.ts (lines 86-101): first set isLoading
    and clear the error; await the API delete (its outcome is the
    `apiResult` argument); on success filter the stream out of the list and
    null the selection when it pointed at the removed id; on failure record
    the error message.  In both branches isLoading ends false. -/
def removeStream (s : StoreState) (id : StreamId)
    (apiResult : Except String Unit) : StoreState :=
  let s1 : StoreState := { s with isLoading := true, error := none }
  match apiResult with
  | Except.ok _ =>
      { s1 with
        streams := s1.streams.filter (fun st => st.id ≠ some id),
        selectedStreamId :=
          if s1.selectedStreamId = some id then none else s1.selectedStreamId,
        isLoading := false }
  | Except.error e => { s1 with error := some e, isLoading := false }

/-! ## Backoff formulas (claim C6) -/

/-- The reconnect delay computed by scheduleReconnect (socketService.ts
    line 212): min(3000 * 1.5 ^ (attempt - 1), 30000), in exact rationals. -/
def backoffDelay (attempt : Nat) : ℚ :=
  min (3000 * (3 / 2 : ℚ) ^ (attempt - 1)) 30000

/-- The reconnectInterval option of useStreamWebSocket (line 78):
    min(1000 * attemptNumber, 10000). -/
def reconnectInterval (attemptNumber : Nat) : Nat :=
  min (1000 * attemptNumber) 10000

/-- Initial react state of the useSocket hook. -/
def initialUseSocketState : UseSocketState :=
  { streamStatus := StreamStatus.idle, frameData := none, error := none }

/-- A WebSocketService state whose socket is mid-handshake (readyState
    CONNECTING, connection state connecting), browser online. -/
def connectingSvc : WebSocketService :=
  { socket := some WSReadyState.CONNECTING
    state := SocketConnectionState.connecting
    reconnectAttempts := 0
    reconnectTimeout := false
    isManualClose := false
    pingActive := false
    onLine := true
    socketGen := 1 }

/-- A concrete stream record for store evaluations. -/
def exStream : Stream :=
  { id := some (StreamId.num 1), name := "cam", url := "rtsp", description := "",
    active := true }

/-- A concrete store state holding exStream, with exStream selected. -/
def exStore : StoreState :=
  { streams := [exStream], isLoading := false, error := none,
    selectedStreamId := some (StreamId.num 1) }

/-! ## Theorems -/

/-- C1: the spec requires that after `started`, `frame`(valid), `stopped`,
    a second valid late `frame` is discarded and the status stays stopped.
    The useStreamWebSocket message handler performs no status check on
    frames: evaluating the handler over exactly that message sequence from
    the initial state ends with status playing (not stopped) and the late
    frame delivered as frameData — the code does not implement the drop the
    spec demands. -/
theorem C1_late_frame_not_discarded :
    lateFrameFinal.streamStatus = StreamStatus.playing ∧
    lateFrameFinal.streamStatus ≠ StreamStatus.stopped ∧
    lateFrameFinal.frameData = some validFrame := by decide

/-- C2 counterexample: in the reachable run of exactly maxReconnects
    consecutive abnormal closures, the final (maxReconnects-th) closure
    still schedules a further reconnect and no terminal error has been
    dispatched — contradicting the claim that once the closure count
    reaches the configured maximum no further attempt is scheduled and
    exactly one terminal error has been emitted. -/
theorem C2_counterexample :
    reachableClosures maxReconnects ∧ scheduledAt maxReconnects = true ∧
    errorsAfter maxReconnects = 0 := by decide

/-- C2 (amended): only once the count of consecutive abnormal closures
    exceeds the configured maximum — i.e. from the (maxReconnects + 1)-th
    closure on, the only reachable such point — does the service stop: that
    closure schedules no reconnect and exactly one terminal error event has
    been dispatched in the whole run. -/
theorem C2_budget_exhaustion_amended :
    ∀ k : Nat, reachableClosures k → maxReconnects + 1 ≤ k →
      scheduledAt k = false ∧ errorsAfter k = 1 := by
  intro k hr hk
  have hk11 : k = maxReconnects + 1 := by
    by_contra hne
    have h11 : maxReconnects + 1 < k := lt_of_le_of_ne hk (Ne.symm hne)
    have ht := hr (maxReconnects + 1) h11 (by omega)
    have hf : scheduledAt (maxReconnects + 1) = false := by decide
    rw [hf] at ht
    exact Bool.noConfusion ht
  subst hk11
  decide

/-- C2 witness: the amended theorem applied to the run of eleven
    consecutive abnormal closures. -/
theorem C2_witness :
    scheduledAt (maxReconnects + 1) = false ∧ errorsAfter (maxReconnects + 1) = 1 :=
  C2_budget_exhaustion_amended (maxReconnects + 1) (by decide) (by decide)

/-- C3 counterexample: the useSocket frame handler (part_001) stores the
    frame unconditionally, so a stream.frame message whose frame field is
    the empty string moves the status from idle to playing — the claim
    fails for that handler. -/
theorem C3_counterexample :
    (UseSocket.handleFrame initialUseSocketState "").streamStatus = StreamStatus.playing ∧
    (UseSocket.handleFrame initialUseSocketState "").frameData = some "" := by decide

/-- C3 (amended): in the useStreamWebSocket message handler, a
    stream.frame message with an empty frame field changes nothing except
    recording one decode failure: the status is untouched (in particular it
    does not newly become playing and is not set to error), the frame
    buffer and error field are unchanged. -/
theorem C3_empty_frame_amended :
    ∀ s : HookState,
      UseStreamWebSocket.handleMessage s (WSMessage.streamFrame "") =
        { s with decodeFailures := s.decodeFailures + 1 } := by
  intro s
  simp [UseStreamWebSocket.handleMessage]

/-- C4 counterexample: with a socket mid-handshake (readyState CONNECTING)
    connect() is not a no-op — it constructs a new transport object (the
    socket generation counter increases), because the guard in connect()
    only checks for readyState OPEN. -/
theorem C4_counterexample :
    connectingSvc.socket = some WSReadyState.CONNECTING ∧
    connectingSvc.state = SocketConnectionState.connecting ∧
    (WebSocketService.connect connectingSvc).1.socketGen = connectingSvc.socketGen + 1 := by
  decide

/-- C4 (amended): connect() is a no-op only when the current socket is
    OPEN; in every other situation — including an in-progress CONNECTING
    handshake — it creates a new transport object and sets the state to
    connecting when online, and leaves the state unchanged (dispatching an
    error) when offline. -/
theorem C4_connect_guard_amended :
    ∀ s : WebSocketService,
      (s.socket = some WSReadyState.OPEN → WebSocketService.connect s = (s, [])) ∧
      (s.socket ≠ some WSReadyState.OPEN → s.onLine = true →
        (WebSocketService.connect s).1.state = SocketConnectionState.connecting ∧
        (WebSocketService.connect s).1.socketGen = s.socketGen + 1) ∧
      (s.socket ≠ some WSReadyState.OPEN → s.onLine = false →
        (WebSocketService.connect s).1 = s) := by
  intro s
  refine ⟨?_, ?_, ?_⟩
  · intro h
    simp [WebSocketService.connect, h]
  · intro h h2
    simp [WebSocketService.connect, h, h2]
  · intro h h2
    simp [WebSocketService.connect, h, h2]

/-- C4 witness: the amended theorem applied to an OPEN-socket state (no-op)
    and to the CONNECTING-socket state (a new transport is created). -/
theorem C4_witness :
    WebSocketService.connect freshOpen = (freshOpen, []) ∧
    (WebSocketService.connect connectingSvc).1.socketGen = connectingSvc.socketGen + 1 :=
  ⟨(C4_connect_guard_amended freshOpen).1 rfl,
   ((C4_connect_guard_amended connectingSvc).2.1 (by decide) rfl).2⟩

/-- C5 counterexample: a closure with the normal close code 1000 that was
    not marked manual still schedules a reconnect — the close code does not
    gate automatic reconnection in WebSocketService, contradicting the
    claim that reconnection is triggered only by an abnormal close code or
    a connect failure. -/
theorem C5_counterexample :
    freshOpen.isManualClose = false ∧
    (WebSocketService.onclose freshOpen 1000).2.1 = true := by decide

/-- C5 (amended): the close handler schedules a reconnect exactly when the
    closure was not marked manual and the attempt budget is not yet
    exhausted, for every close code alike; after disconnect() marks the
    closure intentional (whenever a socket exists), the close callback
    schedules no reconnect. -/
theorem C5_manual_close_gates_amended :
    ∀ (s : WebSocketService) (code : Nat),
      ((WebSocketService.onclose s code).2.1 = true ↔
        (s.isManualClose = false ∧ s.reconnectAttempts + 1 ≤ maxReconnects)) ∧
      (∀ r, s.socket = some r →
        (WebSocketService.onclose (WebSocketService.disconnect s) code).2.1 = false) := by
  intro s code
  constructor
  · unfold WebSocketService.onclose WebSocketService.scheduleReconnect
    by_cases hm : s.isManualClose <;>
      by_cases ha : s.reconnectAttempts + 1 ≤ maxReconnects <;>
        simp [hm, ha]
  · intro r hr
    unfold WebSocketService.disconnect WebSocketService.onclose
    simp [hr]

/-- C5 witness: after disconnect() on an open connection, a subsequent
    closure (abnormal code 1006) schedules no reconnect. -/
theorem C5_witness :
    (WebSocketService.onclose (WebSocketService.disconnect freshOpen) 1006).2.1 = false :=
  (C5_manual_close_gates_amended freshOpen 1006).2 WSReadyState.OPEN rfl

/-- C6: both backoff formulas of the repository are monotone in the
    attempt number and capped: the scheduleReconnect delay
    min(3000 * 1.5^(attempt-1), 30000) never exceeds 30000 and the
    useStreamWebSocket reconnectInterval min(1000 * n, 10000) never exceeds
    10000, and both are non-decreasing for i ≤ j within the retry budget. -/
theorem C6_backoff_monotone_capped :
    ∀ i j : Nat, i ≤ j → j ≤ maxReconnects →
      backoffDelay i ≤ backoffDelay j ∧ backoffDelay j ≤ 30000 ∧
      reconnectInterval i ≤ reconnectInterval j ∧ reconnectInterval j ≤ 10000 := by
  intro i j hij hj
  refine ⟨?_, min_le_right _ _, ?_, min_le_right _ _⟩
  · apply min_le_min _ le_rfl
    apply mul_le_mul_of_nonneg_left _ (by norm_num)
    exact pow_le_pow_right₀ (by norm_num) (Nat.sub_le_sub_right hij 1)
  · exact min_le_min (Nat.mul_le_mul_left 1000 hij) le_rfl

/-- C6 witness: the monotonicity and caps at attempts 2 and 5. -/
theorem C6_witness :
    backoffDelay 2 ≤ backoffDelay 5 ∧ backoffDelay 5 ≤ 30000 ∧
    reconnectInterval 2 ≤ reconnectInterval 5 ∧ reconnectInterval 5 ≤ 10000 :=
  C6_backoff_monotone_capped 2 5 (by decide) (by decide)

/-- C7 counterexample: calling startStream of the useSocket hook with no
    URL (argument and stored URL both absent) records the local error
    message and sends nothing, but leaves the status at idle — the status
    is not set to error as the claim requires. -/
theorem C7_counterexample :
    (UseSocket.startStream initialUseSocketState none none WSReadyState.OPEN).1.streamStatus
        = StreamStatus.idle ∧
    (UseSocket.startStream initialUseSocketState none none WSReadyState.OPEN).1.error
        = some "No RTSP URL provided" ∧
    (UseSocket.startStream initialUseSocketState none none WSReadyState.OPEN).2 = [] := by
  decide

/-- C7 (amended): with a falsy (absent or empty) target URL, startStream —
    in the useSocket hook for every ready state, and in the
    useStreamWebSocket hook with the transport open — records the local
    error message "No RTSP URL provided", performs no network action, and
    leaves the session status unchanged rather than setting it to error. -/
theorem C7_missing_url_amended :
    (∀ (s : UseSocketState) (cur u : Option String) (ready : WSReadyState),
        falsyStr (jsOrString u cur) = true →
        UseSocket.startStream s cur u ready =
          ({ s with error := some "No RTSP URL provided" }, [])) ∧
    (∀ (s : HookState) (url : Option String) (loc : Bool),
        falsyStr url = true →
        UseStreamWebSocket.startStream s url WSReadyState.OPEN loc =
          ({ s with error := some "No RTSP URL provided" }, [])) := by
  constructor
  · intro s cur u ready h
    simp [UseSocket.startStream, h]
  · intro s url loc h
    simp [UseStreamWebSocket.startStream, h]

/-- C7 witness: the amended theorem applied with both URL sources absent
    on a closed transport. -/
theorem C7_witness :
    UseSocket.startStream initialUseSocketState none none WSReadyState.CLOSED =
      ({ initialUseSocketState with error := some "No RTSP URL provided" }, []) :=
  C7_missing_url_amended.1 initialUseSocketState none none WSReadyState.CLOSED rfl

/-- C8: stop() is idempotent on the local session state in all three
    implementations — useSocket, useStreamWebSocket and useRtspStream:
    for every starting state and (fixed) transport ready state, applying
    stopStream twice yields exactly the state of applying it once. -/
theorem C8_stop_idempotent :
    ∀ (s1 : UseSocketState) (s2 : HookState) (s3 : RtspState) (ready : WSReadyState),
      (UseSocket.stopStream (UseSocket.stopStream s1 ready).1 ready).1 =
        (UseSocket.stopStream s1 ready).1 ∧
      (UseStreamWebSocket.stopStream (UseStreamWebSocket.stopStream s2 ready).1 ready).1 =
        (UseStreamWebSocket.stopStream s2 ready).1 ∧
      (UseRtspStream.stopStream (UseRtspStream.stopStream s3 ready).1 ready).1 =
        (UseRtspStream.stopStream s3 ready).1 := by
  intro s1 s2 s3 ready
  refine ⟨rfl, ?_, ?_⟩
  · by_cases h : ready = WSReadyState.OPEN <;>
      simp [UseStreamWebSocket.stopStream, h]
  · by_cases h : ready = WSReadyState.OPEN ∧ s3.status = StreamStatus.playing <;>
      simp [UseRtspStream.stopStream, h]

/-- C9: the onmessage handler swallows pong messages — no listener of any
    kind is dispatched — while every other parsed message with a non-empty
    type is forwarded both to the generic message listeners and to the
    per-type listeners. -/
theorem C9_pong_swallowed :
    WebSocketService.onmessageDispatches (some "pong") = [] ∧
    (∀ t : String, t ≠ "pong" → t ≠ "" →
      WebSocketService.onmessageDispatches (some t) = ["message", t]) := by
  constructor
  · rfl
  · intro t h1 h2
    simp [WebSocketService.onmessageDispatches, h1, h2]

/-- C9 witness: a stream.frame message is forwarded to the generic and
    per-type listeners. -/
theorem C9_witness :
    WebSocketService.onmessageDispatches (some "stream.frame") =
      ["message", "stream.frame"] :=
  C9_pong_swallowed.2 "stream.frame" (by decide) (by decide)

/-- C10: removeStream is atomic on failure and consistent on success: when
    the API delete rejects, the streams list and the selection are exactly
    as before and only error and isLoading change; when it resolves, no
    stream with the removed id remains, and the selection is nulled exactly
    when it pointed at the removed id. -/
theorem C10_removeStream_atomic :
    ∀ (s : StoreState) (id : StreamId),
      (∀ e : String,
          (removeStream s id (Except.error e)).streams = s.streams ∧
          (removeStream s id (Except.error e)).selectedStreamId = s.selectedStreamId ∧
          (removeStream s id (Except.error e)).isLoading = false ∧
          (removeStream s id (Except.error e)).error = some e) ∧
      ((∀ st, st ∈ (removeStream s id (Except.ok ())).streams → st.id ≠ some id) ∧
        (removeStream s id (Except.ok ())).isLoading = false ∧
        (s.selectedStreamId = some id →
          (removeStream s id (Except.ok ())).selectedStreamId = none) ∧
        (s.selectedStreamId ≠ some id →
          (removeStream s id (Except.ok ())).selectedStreamId = s.selectedStreamId)) := by
  intro s id
  refine ⟨fun e => ⟨rfl, rfl, rfl, rfl⟩, ?_, rfl, ?_, ?_⟩
  · intro st hst
    simp only [removeStream] at hst
    have h2 := (List.mem_filter.mp hst).2
    simpa using h2
  · intro h
    simp [removeStream, h]
  · intro h
    simp [removeStream, h]

/-- C10 witness: deleting the selected stream — on API failure the list and
    the selection survive untouched; on success the selection is nulled. -/
theorem C10_witness :
    (removeStream exStore (StreamId.num 1) (Except.error "boom")).streams = exStore.streams ∧
    (removeStream exStore (StreamId.num 1) (Except.ok ())).selectedStreamId = none :=
  ⟨((C10_removeStream_atomic exStore (StreamId.num 1)).1 "boom").1,
   (C10_removeStream_atomic exStore (StreamId.num 1)).2.2.2.1 rfl⟩

end Skylark
